import Mathlib

/-!
Verification development for the Kingshot gift-code bot.

Shallow embedding of the redemption core: the multilingual result
classifier, the defensive click primitive, modal dismissal, the tiered
input locator, the per-code redemption pipeline and its per-run driver,
session statistics, the code-source fetcher, and browser-session release.
Definitions are translated from bot_core.py, bot.py, utils.py and
config.py; browser side effects (sleeps, logging, DOM mutation) are
modelled by explicit state records, and Python exceptions by Except.
-/

/-- Embeds the RedeemResult enumeration of bot_core.py. -/
inductive RedeemResult
  | SUCCESS
  | ALREADY_CLAIMED
  | FAILED
  | INVALID
  | EXPIRED
deriving DecidableEq, Repr

/-- Embeds the LanguageKeywords dataclass of config.py: per-category
multilingual lowercase keyword lists. -/
structure LanguageKeywords where
  login : List String
  confirm : List String
  already_claimed : List String
  success : List String
  error : List String
  code_placeholder : List String

/-- Embeds the LANGUAGE_KEYWORDS instance of config.py, transcribed
verbatim (including duplicated entries present in the source lists). -/
def LANGUAGE_KEYWORDS : LanguageKeywords where
  login := ["login", "iniciar", "sesion", "entrar", "connexion",
    "anmelden", "accedi", "登录", "ログイン", "entrar"]
  confirm := ["confirm", "confirmar", "confirmer", "bestätigen",
    "conferma", "exchange", "canjear", "échanger",
    "确认", "交换", "確認", "交換", "trocar"]
  already_claimed := ["already", "claimed", "received", "redeemed", "used",
    "ya recogido", "ya canjeado", "ya reclamado", "ya usado", "ya obtenido",
    "déjà récupéré", "déjà utilisé", "déjà réclamé", "déjà reçu",
    "bereits", "schon", "erhalten", "eingelöst",
    "già riscattato", "già utilizzato", "già rivendicato", "già ottenuto",
    "已领取", "已使用", "已兑换", "已获得",
    "既に", "すでに", "受け取り済み", "使用済み",
    "já resgatado", "já usado", "já recebido", "já obtido"]
  success := ["success", "successful", "exitoso", "éxito", "succès", "erfolg",
    "successo", "mail", "correo", "e-mail", "email", "inbox",
    "成功", "成功了", "メール", "正常", "sucesso", "enviado"]
  error := ["error", "fail", "failed", "invalid", "expired", "not found",
    "no existe", "inválido", "expirado", "erreur", "invalide", "expiré",
    "fehler", "ungültig", "abgelaufen", "errore", "non valido", "scaduto",
    "错误", "失败", "無効", "期限切れ", "erro", "inválido", "expirado"]
  code_placeholder := ["codigo", "code", "código", "gift", "regalo"]

/-- Substring test on character lists: does the needle occur contiguously
inside the haystack?  Models the Python expression `word in page_text`. -/
def hasSubList (needle : List Char) : List Char → Bool
  | [] => needle.isEmpty
  | c :: rest => needle.isPrefixOf (c :: rest) || hasSubList needle rest

/-- Substring test on strings, models Python `needle in hay`. -/
def strContainsSub (hay needle : String) : Bool :=
  hasSubList needle.data hay.data

/-- Models the Python generator test
`any(word in page_text for word in keywords)`. -/
def hasAnyKeyword (page_text : String) (keywords : List String) : Bool :=
  keywords.any (fun w => strContainsSub page_text w)

/-- The four logging branches taken by _analyze_result in bot_core.py:
a warning for an already-claimed code, a success line, an error line for a
classified error, and a distinct warning for an unrecognized page state. -/
inductive AnalyzeLog
  | alreadyClaimedWarning
  | successInfo
  | errorLog
  | unknownWarning
deriving DecidableEq, Repr

/-- Embeds _analyze_result of bot_core.py together with the log line each
branch emits.  The argument is the lower-cased page markup
(`page_source.lower()` in the source); the three keyword sets are tested
in the fixed source order already-claimed, success, error, with Failed as
the default for an unrecognized page. -/
def analyzeResultFull (page_text : String) : RedeemResult × AnalyzeLog :=
  if hasAnyKeyword page_text LANGUAGE_KEYWORDS.already_claimed then
    (RedeemResult.ALREADY_CLAIMED, AnalyzeLog.alreadyClaimedWarning)
  else if hasAnyKeyword page_text LANGUAGE_KEYWORDS.success then
    (RedeemResult.SUCCESS, AnalyzeLog.successInfo)
  else if hasAnyKeyword page_text LANGUAGE_KEYWORDS.error then
    (RedeemResult.FAILED, AnalyzeLog.errorLog)
  else
    (RedeemResult.FAILED, AnalyzeLog.unknownWarning)

/-- The redemption outcome computed by _analyze_result. -/
def analyzeResult (page_text : String) : RedeemResult :=
  (analyzeResultFull page_text).1

/-- C1: for every lower-cased page content containing both an
already-claimed keyword and a success keyword, the classifier returns
AlreadyClaimed and never Success; moreover the keyword sets are tested in
the fixed order already-claimed, success, error, default. -/
theorem classifier_priority (page : String)
    (hA : hasAnyKeyword page LANGUAGE_KEYWORDS.already_claimed = true)
    (hS : hasAnyKeyword page LANGUAGE_KEYWORDS.success = true) :
    analyzeResult page = RedeemResult.ALREADY_CLAIMED ∧
    analyzeResult page ≠ RedeemResult.SUCCESS ∧
    (∀ q : String, hasAnyKeyword q LANGUAGE_KEYWORDS.already_claimed = false →
      hasAnyKeyword q LANGUAGE_KEYWORDS.success = true →
      analyzeResult q = RedeemResult.SUCCESS) ∧
    (∀ q : String, hasAnyKeyword q LANGUAGE_KEYWORDS.already_claimed = false →
      hasAnyKeyword q LANGUAGE_KEYWORDS.success = false →
      hasAnyKeyword q LANGUAGE_KEYWORDS.error = true →
      analyzeResult q = RedeemResult.FAILED) := by
  refine ⟨?_, ?_, ?_, ?_⟩
  · simp [analyzeResult, analyzeResultFull, hA]
  · simp [analyzeResult, analyzeResultFull, hA]
  · intro q h1 h2
    simp [analyzeResult, analyzeResultFull, h1, h2]
  · intro q h1 h2 h3
    simp [analyzeResult, analyzeResultFull, h1, h2, h3]

/-- Witness for C1 at the concrete page content "already success". -/
theorem classifier_priority_witness :
    analyzeResult "already success" = RedeemResult.ALREADY_CLAIMED :=
  (classifier_priority "already success" (by decide) (by decide)).1

/-- C7: for every lower-cased page content containing no keyword from the
already-claimed, success and error keyword sets, the classifier returns
Failed as a default, and logs the unrecognized state on a branch distinct
from a classified error. -/
theorem classifier_completeness (page : String)
    (hA : hasAnyKeyword page LANGUAGE_KEYWORDS.already_claimed = false)
    (hS : hasAnyKeyword page LANGUAGE_KEYWORDS.success = false)
    (hE : hasAnyKeyword page LANGUAGE_KEYWORDS.error = false) :
    analyzeResultFull page = (RedeemResult.FAILED, AnalyzeLog.unknownWarning) ∧
    AnalyzeLog.unknownWarning ≠ AnalyzeLog.errorLog := by
  constructor
  · simp [analyzeResultFull, hA, hS, hE]
  · decide

/-- Witness for C7 at the concrete page content "zzz". -/
theorem classifier_completeness_witness :
    analyzeResultFull "zzz" = (RedeemResult.FAILED, AnalyzeLog.unknownWarning) :=
  (classifier_completeness "zzz" (by decide) (by decide) (by decide)).1

/-- Outcome of one direct element.click() call inside _click_element_safe:
delivered, intercepted (ElementClickInterceptedException), stale
(StaleElementReferenceException), or any other exception. -/
inductive ClickTry
  | ok
  | intercepted
  | stale
  | otherError
deriving DecidableEq, Repr

/-- Behaviour of a click target: the outcome of the i-th direct click
attempt, and whether the JavaScript forced click would be delivered. -/
structure ClickBehavior where
  attempt : Nat → ClickTry
  jsClick : Bool

/-- Instrumented result of _click_element_safe: the returned Bool, the
number of direct element.click() calls performed, and whether the
JavaScript fallback click was attempted. -/
structure ClickReport where
  delivered : Bool
  directAttempts : Nat
  jsTried : Bool
deriving DecidableEq, Repr

/-- The local max_attempts = 3 of _click_element_safe in bot_core.py. -/
def maxClickAttempts : Nat := 3

/-- Loop body of _click_element_safe: fuel counts the remaining loop
iterations, attempt is the current 0-based attempt index.  Mirrors the
source: a delivered click returns True; interception sleeps and retries,
falling back to the JavaScript click only when attempt == max_attempts - 1;
a stale element or any other exception returns False at once. -/
def clickSafeAux (b : ClickBehavior) : Nat → Nat → ClickReport
  | 0, attempt => ⟨false, attempt, false⟩
  | fuel + 1, attempt =>
    match b.attempt attempt with
    | ClickTry.ok => ⟨true, attempt + 1, false⟩
    | ClickTry.stale => ⟨false, attempt + 1, false⟩
    | ClickTry.otherError => ⟨false, attempt + 1, false⟩
    | ClickTry.intercepted =>
      if attempt == maxClickAttempts - 1 then
        if b.jsClick then ⟨true, attempt + 1, true⟩
        else ⟨false, attempt + 1, true⟩
      else
        clickSafeAux b fuel (attempt + 1)

/-- Embeds _click_element_safe of bot_core.py. -/
def clickElementSafe (b : ClickBehavior) : ClickReport :=
  clickSafeAux b maxClickAttempts 0

/-- Helper bound: the loop performs at most attempt + fuel direct clicks. -/
theorem clickSafeAux_directAttempts_le (b : ClickBehavior) :
    ∀ fuel attempt, (clickSafeAux b fuel attempt).directAttempts ≤ attempt + fuel := by
  intro fuel
  induction fuel with
  | zero => intro attempt; simp [clickSafeAux]
  | succ n ih =>
    intro attempt
    unfold clickSafeAux
    cases b.attempt attempt with
    | ok => simp
    | stale => simp
    | otherError => simp
    | intercepted =>
      by_cases h : attempt == maxClickAttempts - 1
      · simp [h]
        cases b.jsClick <;> simp
      · simp [h]
        have := ih (attempt + 1)
        omega

/-- C5: for a permanently intercepted target, _click_element_safe performs
exactly 3 direct click attempts, falls back to the JavaScript forced click,
and returns true exactly when the forced click is delivered; in general it
never performs more than 3 direct click attempts. -/
theorem click_retry_bound (b : ClickBehavior)
    (h : ∀ i, b.attempt i = ClickTry.intercepted) :
    clickElementSafe b = ⟨b.jsClick, 3, true⟩ ∧
    ∀ c : ClickBehavior, (clickElementSafe c).directAttempts ≤ 3 := by
  constructor
  · show clickSafeAux b 3 0 = _
    rw [show clickSafeAux b 3 0 = (match b.attempt 0 with
      | ClickTry.ok => (⟨true, 1, false⟩ : ClickReport)
      | ClickTry.stale => ⟨false, 1, false⟩
      | ClickTry.otherError => ⟨false, 1, false⟩
      | ClickTry.intercepted => clickSafeAux b 2 1) from rfl, h 0]
    show clickSafeAux b 2 1 = _
    rw [show clickSafeAux b 2 1 = (match b.attempt 1 with
      | ClickTry.ok => (⟨true, 2, false⟩ : ClickReport)
      | ClickTry.stale => ⟨false, 2, false⟩
      | ClickTry.otherError => ⟨false, 2, false⟩
      | ClickTry.intercepted => clickSafeAux b 1 2) from rfl, h 1]
    show clickSafeAux b 1 2 = _
    rw [show clickSafeAux b 1 2 = (match b.attempt 2 with
      | ClickTry.ok => (⟨true, 3, false⟩ : ClickReport)
      | ClickTry.stale => ⟨false, 3, false⟩
      | ClickTry.otherError => ⟨false, 3, false⟩
      | ClickTry.intercepted =>
        if b.jsClick then ⟨true, 3, true⟩ else ⟨false, 3, true⟩) from rfl, h 2]
    cases b.jsClick <;> simp
  · intro c
    have := clickSafeAux_directAttempts_le c maxClickAttempts 0
    simpa [clickElementSafe, maxClickAttempts] using this

/-- Witness for C5: a concrete always-intercepted target whose forced
click also fails yields a failure report after 3 direct attempts. -/
theorem click_retry_bound_witness :
    clickElementSafe ⟨fun _ => ClickTry.intercepted, false⟩ =
      ⟨false, 3, true⟩ :=
  (click_retry_bound ⟨fun _ => ClickTry.intercepted, false⟩ (fun _ => rfl)).1

/-- C6: against a stale handle, _click_element_safe returns failure on the
first attempt, with zero retries and without trying the forced click,
whatever the JavaScript click would have done. -/
theorem stale_handle_short_circuit (b : ClickBehavior)
    (h : b.attempt 0 = ClickTry.stale) :
    clickElementSafe b = ⟨false, 1, false⟩ := by
  show clickSafeAux b 3 0 = _
  rw [show clickSafeAux b 3 0 = (match b.attempt 0 with
    | ClickTry.ok => (⟨true, 1, false⟩ : ClickReport)
    | ClickTry.stale => ⟨false, 1, false⟩
    | ClickTry.otherError => ⟨false, 1, false⟩
    | ClickTry.intercepted => clickSafeAux b 2 1) from rfl, h]

/-- Witness for C6: a concrete stale handle whose forced click would have
been delivered still fails immediately after one direct attempt. -/
theorem stale_handle_short_circuit_witness :
    clickElementSafe ⟨fun _ => ClickTry.stale, true⟩ = ⟨false, 1, false⟩ :=
  stale_handle_short_circuit ⟨fun _ => ClickTry.stale, true⟩ rfl

/-- Model of a DOM element handle as used by dismiss_modal: whether
is_displayed() reports true (none models a stale handle, for which
_is_element_visible catches the exception and reports false), and the
click behaviour consumed by _click_element_safe. -/
structure PageElement where
  displayed : Option Bool
  click : ClickBehavior

/-- Embeds _is_element_visible of bot_core.py. -/
def isElementVisible (e : PageElement) : Bool :=
  e.displayed.getD false

/-- Whether _click_element_safe on this element reports a delivered click. -/
def clickDelivered (e : PageElement) : Bool :=
  (clickElementSafe e.click).delivered

/-- Page state observed by dismiss_modal: the element lists returned by
the five close-button selectors of SELECTORS.close_buttons, the element
found by the div.mask selector (if any), and whether the JavaScript
force-close script executes without raising.  On a live driver the script
runs querySelectorAll and succeeds even when it matches no element. -/
structure ModalPage where
  closeButtons : List (List PageElement)
  mask : Option PageElement
  scriptOk : Bool

/-- Embeds dismiss_modal of bot_core.py.  Method 1 clicks the first
visible close button whose click is delivered; Method 2 clicks a visible
mask; Method 3 force-closes via JavaScript and reports success whenever
the script executes; only if all three fail does it return false.  The
whole body is wrapped in a catch-all handler, so the function is total. -/
def dismissModal (p : ModalPage) : Bool :=
  if p.closeButtons.any (fun btns =>
      btns.any (fun b => isElementVisible b && clickDelivered b)) then
    true
  else if (p.mask.map (fun m => isElementVisible m && clickDelivered m)).getD false then
    true
  else if p.scriptOk then
    true
  else
    false

/-- Counterexample to C2 as stated: on a page with no close button, no
mask and no modal element at all, but a working script engine (the normal
situation for a live driver), dismiss_modal returns true via the
unconditional JavaScript force-close branch, not false. -/
theorem modal_dismissal_counterexample :
    dismissModal ⟨[[], [], [], [], []], none, true⟩ = true := rfl

/-- C2 amended: for every page state with no overlay element present
(every close-button selector returns no element and no mask is found),
dismiss_modal never raises and returns exactly the success of the
JavaScript force-close: true whenever the script executes (it reports
dismissal unconditionally), and false only when the script also fails. -/
theorem modal_dismissal_no_overlay (p : ModalPage)
    (hbtn : ∀ btns ∈ p.closeButtons, btns = [])
    (hmask : p.mask = none) :
    dismissModal p = p.scriptOk := by
  have h1 : (p.closeButtons.any (fun btns =>
      btns.any (fun b => isElementVisible b && clickDelivered b))) = false := by
    rw [List.any_eq_false]
    intro btns hb
    rw [hbtn btns hb]
    simp
  rw [dismissModal, h1, hmask]
  cases p.scriptOk <;> simp

/-- Witness for C2 amended: with no overlay present and a failing script
engine, dismiss_modal returns false. -/
theorem modal_dismissal_no_overlay_witness :
    dismissModal ⟨[[], [], [], [], []], none, false⟩ = false := by
  have h := modal_dismissal_no_overlay ⟨[[], [], [], [], []], none, false⟩
    (by intro btns hb; simp at hb; tauto) rfl
  simpa using h

/-- Model of an input element as probed by _find_input_field: visibility
(none models a stale handle), the maxlength attribute and the placeholder
attribute as returned by get_attribute (none models a missing attribute). -/
structure InputEl where
  displayed : Option Bool
  maxlengthAttr : Option String
  placeholderAttr : Option String
deriving DecidableEq, Repr

/-- Visibility of an input element, mirroring _is_element_visible. -/
def isInputVisible (i : InputEl) : Bool :=
  i.displayed.getD false

/-- Page state observed by _find_input_field: the elements matched by the
typed selector input[type=text], and the elements matched by the generic
input tag lookup used as a fallback. -/
structure InputPage where
  textTypeInputs : List InputEl
  allInputs : List InputEl

/-- The two roles _find_input_field is called with in bot_core.py. -/
inductive FieldType
  | player_id
  | code
deriving DecidableEq, Repr

/-- Placeholder keyword set per role: LANGUAGE_KEYWORDS.code_placeholder
for the code field, and the literal list for the player-id field. -/
def fieldKeywords : FieldType → List String
  | FieldType.code => LANGUAGE_KEYWORDS.code_placeholder
  | FieldType.player_id => ["player", "id", "jugador"]

/-- Candidate gathering of _find_input_field: the typed selector results
if nonempty, otherwise all inputs filtered by visibility; then the
resulting list filtered by visibility. -/
def gatherVisibleInputs (p : InputPage) : List InputEl :=
  let inputs :=
    if p.textTypeInputs.isEmpty then p.allInputs.filter isInputVisible
    else p.textTypeInputs
  inputs.filter isInputVisible

/-- Placeholder tier test: the lower-cased placeholder (empty when the
attribute is missing) contains some role keyword. -/
def placeholderMatches (ft : FieldType) (i : InputEl) : Bool :=
  let ph := (i.placeholderAttr.getD "").toLower
  (fieldKeywords ft).any (fun kw => strContainsSub ph kw)

/-- Embeds _find_input_field of bot_core.py.  Tier 1: when a maxlength
argument is supplied (Python truthiness: a nonempty string), the first
visible input whose maxlength attribute equals it; tier 2: the first
visible input whose placeholder contains a role keyword; tier 3: the
first visible input, logged as a low-confidence fallback; otherwise none. -/
def findInputField (p : InputPage) (ft : FieldType) (maxlength : Option String) :
    Option InputEl :=
  let visible_inputs := gatherVisibleInputs p
  let byMaxlength : Option InputEl :=
    match maxlength with
    | some ml =>
      if ml.isEmpty then none
      else visible_inputs.find? (fun i => i.maxlengthAttr == some ml)
    | none => none
  match byMaxlength with
  | some i => some i
  | none =>
    match visible_inputs.find? (placeholderMatches ft) with
    | some i => some i
    | none => visible_inputs.head?

/-- C9: for every call with a (nonempty) maxLength argument: if some
visible candidate input carries exactly that maxlength attribute, the
first such input is returned; otherwise, if some visible candidate has a
role-matching placeholder, the first such input is returned; otherwise
the first visible candidate is returned as a low-confidence match; and
none is returned exactly when no visible candidate input exists. -/
theorem input_locator_tiers (p : InputPage) (ft : FieldType) (ml : String)
    (hml : ml.isEmpty = false) :
    ((∃ i ∈ gatherVisibleInputs p, i.maxlengthAttr = some ml) →
      findInputField p ft (some ml) =
        (gatherVisibleInputs p).find? (fun i => i.maxlengthAttr == some ml)) ∧
    ((∀ i ∈ gatherVisibleInputs p, i.maxlengthAttr ≠ some ml) →
      (∃ i ∈ gatherVisibleInputs p, placeholderMatches ft i = true) →
      findInputField p ft (some ml) =
        (gatherVisibleInputs p).find? (placeholderMatches ft)) ∧
    ((∀ i ∈ gatherVisibleInputs p, i.maxlengthAttr ≠ some ml) →
      (∀ i ∈ gatherVisibleInputs p, placeholderMatches ft i = false) →
      findInputField p ft (some ml) = (gatherVisibleInputs p).head?) ∧
    (findInputField p ft (some ml) = none ↔ gatherVisibleInputs p = []) := by
  refine ⟨?_, ?_, ?_, ?_⟩
  · rintro ⟨i, hiMem, hiAttr⟩
    have hsome : ((gatherVisibleInputs p).find?
        (fun i => i.maxlengthAttr == some ml)).isSome := by
      rw [List.find?_isSome]
      exact ⟨i, hiMem, by simp [hiAttr]⟩
    obtain ⟨j, hj⟩ := Option.isSome_iff_exists.mp hsome
    simp [findInputField, hml, hj]
  · intro hnone hex
    have hfn : (gatherVisibleInputs p).find?
        (fun i => i.maxlengthAttr == some ml) = none := by
      rw [List.find?_eq_none]
      intro x hx
      simpa using hnone x hx
    obtain ⟨i, hiMem, hiPh⟩ := hex
    have hsome : ((gatherVisibleInputs p).find? (placeholderMatches ft)).isSome := by
      rw [List.find?_isSome]
      exact ⟨i, hiMem, hiPh⟩
    obtain ⟨j, hj⟩ := Option.isSome_iff_exists.mp hsome
    simp [findInputField, hml, hfn, hj]
  · intro hnone hph
    have hfn : (gatherVisibleInputs p).find?
        (fun i => i.maxlengthAttr == some ml) = none := by
      rw [List.find?_eq_none]
      intro x hx
      simpa using hnone x hx
    have hfp : (gatherVisibleInputs p).find? (placeholderMatches ft) = none := by
      rw [List.find?_eq_none]
      intro x hx
      simp [hph x hx]
    simp [findInputField, hml, hfn, hfp]
  · constructor
    · intro hres
      by_contra hne
      rcases hfm : (gatherVisibleInputs p).find?
          (fun i => i.maxlengthAttr == some ml) with _ | j
      · rcases hfp : (gatherVisibleInputs p).find? (placeholderMatches ft) with _ | j
        · have hh : (gatherVisibleInputs p).head? = none := by
            have := hres
            simpa [findInputField, hml, hfm, hfp] using this
          rcases hgv : gatherVisibleInputs p with _ | ⟨a, rest⟩
          · exact hne hgv
          · rw [hgv] at hh
            simp at hh
        · have := hres
          simp [findInputField, hml, hfm, hfp] at this
      · have := hres
        simp [findInputField, hml, hfm] at this
    · intro hempty
      simp [findInputField, hml, hempty]

/-- Witness for C9: a concrete page with two visible text inputs, the
second carrying maxlength 20, resolves the code field to that input. -/
theorem input_locator_tiers_witness :
    findInputField
      ⟨[⟨some true, none, none⟩, ⟨some true, some "20", none⟩], []⟩
      FieldType.code (some "20") = some ⟨some true, some "20", none⟩ := by
  have h := (input_locator_tiers
    ⟨[⟨some true, none, none⟩, ⟨some true, some "20", none⟩], []⟩
    FieldType.code "20" (by decide)).1
    ⟨⟨some true, some "20", none⟩, by decide, rfl⟩
  rw [h]
  decide

/-- Embeds the RedeemStats dataclass of bot_core.py. -/
structure RedeemStats where
  successful : Nat
  already_claimed : Nat
  failed : Nat
deriving DecidableEq, Repr

/-- Embeds the derived total of RedeemStats. -/
def RedeemStats.total (s : RedeemStats) : Nat :=
  s.successful + s.already_claimed + s.failed

/-- Embeds RedeemStats.update of bot_core.py: Success and AlreadyClaimed
each increment their own counter, every other result (Failed, Invalid,
Expired) increments failed. -/
def RedeemStats.update (s : RedeemStats) (result : RedeemResult) : RedeemStats :=
  match result with
  | RedeemResult.SUCCESS => { s with successful := s.successful + 1 }
  | RedeemResult.ALREADY_CLAIMED => { s with already_claimed := s.already_claimed + 1 }
  | _ => { s with failed := s.failed + 1 }

/-- One update call per processed code, starting from the zeroed stats of
a fresh session. -/
def tallyRun (results : List RedeemResult) : RedeemStats :=
  results.foldl RedeemStats.update ⟨0, 0, 0⟩

/-- Embeds the per-code tally step of run_cli in bot.py (lines 157-162):
three local counters updated by the same case split as RedeemStats.update. -/
def cliTallyStep (counts : Nat × Nat × Nat) (result : RedeemResult) :
    Nat × Nat × Nat :=
  if result == RedeemResult.SUCCESS then (counts.1 + 1, counts.2.1, counts.2.2)
  else if result == RedeemResult.ALREADY_CLAIMED then
    (counts.1, counts.2.1 + 1, counts.2.2)
  else (counts.1, counts.2.1, counts.2.2 + 1)

/-- The counters run_cli accumulates over a list of per-code outcomes. -/
def cliTally (results : List RedeemResult) : Nat × Nat × Nat :=
  results.foldl cliTallyStep (0, 0, 0)

/-- Helper: folding update over a list adds exactly the list length to the
total. -/
theorem foldl_update_total (results : List RedeemResult) :
    ∀ s : RedeemStats, (results.foldl RedeemStats.update s).total =
      s.total + results.length := by
  induction results with
  | nil => intro s; simp
  | cons r rest ih =>
    intro s
    have hstep : (RedeemStats.update s r).total = s.total + 1 := by
      cases r <;> simp [RedeemStats.update, RedeemStats.total] <;> omega
    simp only [List.foldl_cons, ih, hstep, List.length_cons]
    omega

/-- Helper: the local counters of run_cli agree componentwise with the
RedeemStats fold. -/
theorem cliTally_eq_foldl (results : List RedeemResult) :
    ∀ s : RedeemStats,
      results.foldl cliTallyStep (s.successful, s.already_claimed, s.failed) =
        ((results.foldl RedeemStats.update s).successful,
         (results.foldl RedeemStats.update s).already_claimed,
         (results.foldl RedeemStats.update s).failed) := by
  induction results with
  | nil => intro s; simp
  | cons r rest ih =>
    intro s
    have hstep : cliTallyStep (s.successful, s.already_claimed, s.failed) r =
        ((RedeemStats.update s r).successful,
         (RedeemStats.update s r).already_claimed,
         (RedeemStats.update s r).failed) := by
      cases r <;> simp [cliTallyStep, RedeemStats.update]
    simp only [List.foldl_cons, hstep]
    exact ih (RedeemStats.update s r)

/-- C4: tallying any sequence of N outcomes gives
successful + already_claimed + failed = N exactly; a single update
increments exactly one counter and never decrements any; every outcome
other than Success and AlreadyClaimed (Invalid and Expired included)
increments failed; and the local counters of run_cli agree with the
RedeemStats fold. -/
theorem statistics_conservation (results : List RedeemResult) :
    (tallyRun results).total = results.length ∧
    (∀ (s : RedeemStats) (r : RedeemResult),
      s.successful ≤ (RedeemStats.update s r).successful ∧
      s.already_claimed ≤ (RedeemStats.update s r).already_claimed ∧
      s.failed ≤ (RedeemStats.update s r).failed ∧
      (RedeemStats.update s r).total = s.total + 1) ∧
    (∀ (s : RedeemStats) (r : RedeemResult),
      r ≠ RedeemResult.SUCCESS → r ≠ RedeemResult.ALREADY_CLAIMED →
      RedeemStats.update s r = { s with failed := s.failed + 1 }) ∧
    cliTally results =
      ((tallyRun results).successful, (tallyRun results).already_claimed,
       (tallyRun results).failed) := by
  refine ⟨?_, ?_, ?_, ?_⟩
  · have h := foldl_update_total results ⟨0, 0, 0⟩
    simpa [tallyRun, RedeemStats.total] using h
  · intro s r
    cases r <;> simp [RedeemStats.update, RedeemStats.total] <;> omega
  · intro s r h1 h2
    cases r <;> simp_all [RedeemStats.update]
  · have h := cliTally_eq_foldl results ⟨0, 0, 0⟩
    simpa [cliTally, tallyRun] using h

/-- Witness for C4 at a concrete outcome sequence covering Invalid and
Expired: both land in failed and the total is conserved. -/
theorem statistics_conservation_witness :
    (tallyRun [RedeemResult.SUCCESS, RedeemResult.ALREADY_CLAIMED,
      RedeemResult.INVALID, RedeemResult.EXPIRED]).total = 4 ∧
    RedeemStats.update ⟨0, 0, 0⟩ RedeemResult.EXPIRED = ⟨0, 0, 1⟩ := by
  constructor
  · exact (statistics_conservation [RedeemResult.SUCCESS,
      RedeemResult.ALREADY_CLAIMED, RedeemResult.INVALID,
      RedeemResult.EXPIRED]).1
  · have h := (statistics_conservation []).2.2.1 ⟨0, 0, 0⟩ RedeemResult.EXPIRED
      (by decide) (by decide)
    simpa using h

/-- Environment of one redeem_code invocation: the behaviour of each
side-effecting step of the 7-step pipeline.  An Except.error value means
that step raises a Python exception (modelled as its message).  Steps:
1 wait for page update, 2 locate the code field (maxlength 20),
3 scroll/click/clear/type the code, 4 locate the confirm button,
5 click it, 6 wait for the server response, 7 read the page source and
classify; afterwards dismiss_modal runs on the current page. -/
structure RedeemEnv where
  pageWait : Except String Unit
  codeField : Except String (Option InputEl)
  enterCode : Except String Unit
  confirmButton : Except String (Option PageElement)
  responseWait : Except String Unit
  pageSource : Except String String
  modalPage : ModalPage

/-- Embeds the try-body of redeem_code in bot_core.py: a missing field or
button, or an undelivered confirm click, returns Failed normally; any
raised exception propagates out of the pipeline (to be caught at the
per-code boundary).  The pageSource value is the lower-cased markup fed
to the classifier. -/
def redeemPipeline (env : RedeemEnv) : Except String RedeemResult := do
  let _ ← env.pageWait
  let fld ← env.codeField
  match fld with
  | none => return RedeemResult.FAILED
  | some _ => do
    let _ ← env.enterCode
    let btn ← env.confirmButton
    match btn with
    | none => return RedeemResult.FAILED
    | some b =>
      if (clickElementSafe b.click).delivered then do
        let _ ← env.responseWait
        let page ← env.pageSource
        let result := analyzeResult page
        let _ := dismissModal env.modalPage
        return result
      else
        return RedeemResult.FAILED

/-- Embeds redeem_code of bot_core.py: the pipeline runs inside a
catch-all handler that converts any exception into the Failed outcome. -/
def redeemCode (env : RedeemEnv) : RedeemResult :=
  match redeemPipeline env with
  | Except.ok r => r
  | Except.error _ => RedeemResult.FAILED

/-- Embeds the per-code loop of run_cli in bot.py: redeem_code is invoked
once per code, in list order, unconditionally. -/
def runCodes (envs : List RedeemEnv) : List RedeemResult :=
  envs.map redeemCode

/-- C3: if the pipeline of the i-th code raises at any step, the
exception is caught inside the per-code call, that code gets outcome
Failed, and the run still produces one outcome for every code, each being
exactly the per-code result of its own environment (so all subsequent
codes are attempted). -/
theorem sequential_isolation (envs : List RedeemEnv) (i : Nat)
    (hi : i < envs.length)
    (herr : ∃ e, redeemPipeline (envs.get ⟨i, hi⟩) = Except.error e) :
    (runCodes envs).length = envs.length ∧
    (runCodes envs).get ⟨i, by simpa [runCodes] using hi⟩ = RedeemResult.FAILED ∧
    (∀ j (hj : j < envs.length),
      (runCodes envs).get ⟨j, by simpa [runCodes] using hj⟩ =
        redeemCode (envs.get ⟨j, hj⟩)) := by
  refine ⟨by simp [runCodes], ?_, ?_⟩
  · obtain ⟨e, he⟩ := herr
    have hmap : (runCodes envs).get ⟨i, by simpa [runCodes] using hi⟩ =
        redeemCode (envs.get ⟨i, hi⟩) := by
      simp [runCodes, List.get_eq_getElem]
    rw [hmap, redeemCode, he]
  · intro j hj
    simp [runCodes, List.get_eq_getElem]

/-- Witness for C3: a two-code run whose first pipeline raises at step 1
still attempts the second code, records Failed for the first, and keeps
one outcome per code. -/
theorem sequential_isolation_witness :
    (runCodes
      [⟨Except.error "boom", Except.ok none, Except.ok (), Except.ok none,
        Except.ok (), Except.ok "", ⟨[], none, true⟩⟩,
       ⟨Except.ok (), Except.ok none, Except.ok (), Except.ok none,
        Except.ok (), Except.ok "", ⟨[], none, true⟩⟩]).length = 2 ∧
    (runCodes
      [⟨Except.error "boom", Except.ok none, Except.ok (), Except.ok none,
        Except.ok (), Except.ok "", ⟨[], none, true⟩⟩,
       ⟨Except.ok (), Except.ok none, Except.ok (), Except.ok none,
        Except.ok (), Except.ok "", ⟨[], none, true⟩⟩]).get
      ⟨0, by simp [runCodes]⟩ = RedeemResult.FAILED := by
  have h := sequential_isolation
    [⟨Except.error "boom", Except.ok none, Except.ok (), Except.ok none,
      Except.ok (), Except.ok "", ⟨[], none, true⟩⟩,
     ⟨Except.ok (), Except.ok none, Except.ok (), Except.ok none,
      Except.ok (), Except.ok "", ⟨[], none, true⟩⟩]
    0 (by simp) ⟨"boom", rfl⟩
  exact ⟨h.1, h.2.1⟩

/-- The max_attempts = 3 of RETRY_CONFIG in config.py. -/
def retryMaxAttempts : Nat := 3

/-- The MAX_CODES_TO_FETCH = 20 limit of config.py. -/
def MAX_CODES_TO_FETCH : Nat := 20

/-- Environment of one CodeFetcher.fetch call: the text produced by the
i-th network attempt (none models a timeout, connection or HTTP error on
that attempt), and the outcome of parsing a fetched page (the list of
regex matches of SCRAPING_PATTERN over the extracted text, in page
order, or a raised parsing exception). -/
structure FetchEnv where
  attemptText : Nat → Option String
  parseMatches : String → Except String (List String)

/-- Loop of CodeFetcher._fetch_with_retry in utils.py: up to
max_attempts network attempts (with backoff delays, irrelevant to the
result), returning the first successful response text, or none after
exhaustion. -/
def fetchWithRetryAux (env : FetchEnv) : Nat → Nat → Option String
  | 0, _ => none
  | fuel + 1, attempt =>
    match env.attemptText attempt with
    | some text => some text
    | none => fetchWithRetryAux env fuel (attempt + 1)

/-- Embeds CodeFetcher._fetch_with_retry of utils.py. -/
def fetchWithRetry (env : FetchEnv) : Option String :=
  fetchWithRetryAux env retryMaxAttempts 0

/-- The dedup loop of CodeFetcher.fetch: keep the first occurrence of
each code, tracking codes already seen. -/
def dedupKeepFirst (seen : List String) : List String → List String
  | [] => []
  | code :: rest =>
    if code ∈ seen then dedupKeepFirst seen rest
    else code :: dedupKeepFirst (code :: seen) rest

/-- Embeds CodeFetcher.fetch of utils.py: a failed (or empty, by Python
truthiness) retrieval returns the empty list; a parsing exception is
caught and returns the empty list; otherwise the match list is deduplicated
preserving first-occurrence order and truncated to MAX_CODES_TO_FETCH. -/
def fetch (env : FetchEnv) : List String :=
  match fetchWithRetry env with
  | none => []
  | some html =>
    if html.isEmpty then []
    else
      match env.parseMatches html with
      | Except.error _ => []
      | Except.ok ms => (dedupKeepFirst [] ms).take MAX_CODES_TO_FETCH

/-- Helper: the dedup loop yields a sublist of its input, so the relative
order of the kept matches is the page order. -/
theorem dedupKeepFirst_sublist (l : List String) :
    ∀ seen, List.Sublist (dedupKeepFirst seen l) l := by
  induction l with
  | nil => intro seen; simp [dedupKeepFirst]
  | cons c rest ih =>
    intro seen
    rw [dedupKeepFirst]
    by_cases h : c ∈ seen
    · simp only [if_pos h]
      exact List.Sublist.cons c (ih seen)
    · simp only [if_neg h]
      exact List.Sublist.cons₂ c (ih (c :: seen))

/-- Helper: the dedup loop emits no duplicates and nothing already seen. -/
theorem dedupKeepFirst_nodup (l : List String) :
    ∀ seen, (dedupKeepFirst seen l).Nodup ∧
      ∀ x ∈ dedupKeepFirst seen l, x ∉ seen := by
  induction l with
  | nil => intro seen; simp [dedupKeepFirst]
  | cons c rest ih =>
    intro seen
    rw [dedupKeepFirst]
    by_cases h : c ∈ seen
    · simp only [if_pos h]
      exact ih seen
    · simp only [if_neg h]
      obtain ⟨hnd, hmem⟩ := ih (c :: seen)
      refine ⟨?_, ?_⟩
      · refine List.nodup_cons.mpr ⟨?_, hnd⟩
        intro hc
        exact hmem c hc (by simp)
      · intro x hx
        rcases List.mem_cons.mp hx with hx | hx
        · exact hx ▸ h
        · intro hxs
          exact hmem x hx (by simp [hxs])

/-- C8: every fetch result is duplicate-free; when a page is fetched and
parsed, the result is a sublist of the match list (first-occurrence order
preserved); when every network attempt fails the fetcher returns the
empty list; and when parsing raises it also returns the empty list. -/
theorem code_fetcher_contract (env : FetchEnv) :
    (fetch env).Nodup ∧
    (∀ html ms, fetchWithRetry env = some html →
      env.parseMatches html = Except.ok ms →
      List.Sublist (fetch env) ms) ∧
    ((∀ i, env.attemptText i = none) → fetch env = []) ∧
    (∀ html e, fetchWithRetry env = some html →
      env.parseMatches html = Except.error e → fetch env = []) := by
  refine ⟨?_, ?_, ?_, ?_⟩
  · rw [fetch]
    rcases hf : fetchWithRetry env with _ | html
    · simp
    · by_cases he : html.isEmpty
      · simp [he]
      · rcases hp : env.parseMatches html with e | ms
        · simp [he, hp]
        · simp only [he, hp, Bool.false_eq_true, if_neg]
          have hnd := (dedupKeepFirst_nodup ms []).1
          exact hnd.sublist (List.take_sublist _ _)
  · intro html ms hf hp
    rw [fetch, hf]
    by_cases he : html.isEmpty
    · simp [he]
    · simp only [he, hp, Bool.false_eq_true, if_neg]
      exact (List.take_sublist _ _).trans (dedupKeepFirst_sublist ms [])
  · intro hall
    have hf : fetchWithRetry env = none := by
      rw [fetchWithRetry, retryMaxAttempts]
      rw [fetchWithRetryAux, hall 0]
      rw [fetchWithRetryAux, hall 1]
      rw [fetchWithRetryAux, hall 2]
      rw [fetchWithRetryAux]
    rw [fetch, hf]
  · intro html e hf hp
    rw [fetch, hf]
    by_cases he : html.isEmpty
    · simp [he]
    · simp [he, hp]

/-- Witness for C8: a concrete environment whose first attempt succeeds
and whose page yields the match list A, B, A produces the duplicate-free
list A, B in page order. -/
theorem code_fetcher_contract_witness :
    (fetch ⟨fun i => if i == 0 then some "page" else none,
      fun _ => Except.ok ["A", "B", "A"]⟩).Nodup ∧
    List.Sublist
      (fetch ⟨fun i => if i == 0 then some "page" else none,
        fun _ => Except.ok ["A", "B", "A"]⟩) ["A", "B", "A"] := by
  have h := code_fetcher_contract
    ⟨fun i => if i == 0 then some "page" else none,
     fun _ => Except.ok ["A", "B", "A"]⟩
  exact ⟨h.1, h.2.1 "page" ["A", "B", "A"] rfl rfl⟩

/-- State of the bot object around close() in bot_core.py, instrumented:
whether self.driver currently holds a reference, whether driver.quit()
raises when called (behaviour of this session), the number of quit()
calls performed, the number of successful terminations, and the number of
close() calls performed. -/
structure BotState where
  driverPresent : Bool
  quitRaises : Bool
  quitCalls : Nat
  termCount : Nat
  closeCalls : Nat
deriving DecidableEq, Repr

/-- Embeds close() of bot_core.py: when a driver reference is held, quit
is called; on success the reference is set to None; when quit raises, the
exception is caught (close returns normally) but the assignment to None
is skipped, so the reference is retained.  Without a reference, nothing
is quit. -/
def closeBot (s : BotState) : BotState :=
  if s.driverPresent then
    if s.quitRaises then
      { s with quitCalls := s.quitCalls + 1, closeCalls := s.closeCalls + 1 }
    else
      { s with driverPresent := false, quitCalls := s.quitCalls + 1,
               termCount := s.termCount + 1, closeCalls := s.closeCalls + 1 }
  else
    { s with closeCalls := s.closeCalls + 1 }

/-- Iterated close() calls. -/
def closeBotIter : Nat → BotState → BotState
  | 0, s => s
  | n + 1, s => closeBotIter n (closeBot s)

/-- The exit paths of the try-block of run_cli in bot.py after the bot is
constructed: normal completion (exit code 0), login failure, a
KeyboardInterrupt, or an unexpected exception (exit code 1). -/
inductive CliExit
  | normal
  | loginFailed
  | interrupted
  | unexpectedError
deriving DecidableEq, Repr

/-- One run_cli execution after bot construction: the bot state when the
try-block is left, and the exit path taken. -/
structure CliRun where
  bot : BotState
  bodyOutcome : CliExit

/-- Embeds the return/except/finally tail of run_cli in bot.py: whichever
path leaves the try-block, the finally-block invokes bot.close(). -/
def runCliFinal (r : CliRun) : Nat × BotState :=
  let exitCode : Nat :=
    match r.bodyOutcome with
    | CliExit.normal => 0
    | _ => 1
  (exitCode, closeBot r.bot)

/-- Counterexample to C10 as stated: on a session whose quit() raises
(error caught inside close), the first close leaves the driver reference
set, and a second close performs another quit call, so it is not the case
that after the first close the driver reference is always None and no
subsequent close performs a quit. -/
theorem close_release_counterexample :
    (closeBot ⟨true, true, 0, 0, 0⟩).driverPresent = true ∧
    (closeBot (closeBot ⟨true, true, 0, 0, 0⟩)).quitCalls = 2 := by
  decide

/-- C10 amended: close() never raises (it is total, quit errors are
caught); when quit succeeds the driver reference is cleared and a second
close performs no further quit call; the browser is successfully
terminated at most once over any number of close calls; and the run_cli
finally-block invokes close on every exit path (normal completion, login
failure, interrupt, unexpected error). -/
theorem close_guaranteed_release (s : BotState) (n : Nat)
    (hterm : s.termCount = 0) :
    (s.quitRaises = false → s.driverPresent = true →
      (closeBot s).driverPresent = false ∧
      (closeBot (closeBot s)).quitCalls = (closeBot s).quitCalls) ∧
    (closeBotIter n s).termCount ≤ 1 ∧
    (∀ r : CliRun, (runCliFinal r).2.closeCalls = r.bot.closeCalls + 1) := by
  refine ⟨?_, ?_, ?_⟩
  · intro hq hd
    simp [closeBot, hq, hd]
  · have key : ∀ m (t : BotState),
        (t.termCount ≤ 1 ∧ (t.driverPresent = true → t.termCount = 0)) →
        (closeBotIter m t).termCount ≤ 1 := by
      intro m
      induction m with
      | zero => intro t ht; exact ht.1
      | succ k ih =>
        intro t ht
        rw [closeBotIter]
        apply ih
        by_cases hd : t.driverPresent
        · by_cases hq : t.quitRaises
          · constructor
            · simpa [closeBot, hd, hq] using ht.1
            · intro h
              simpa [closeBot, hd, hq] using ht.2 hd
          · constructor
            · have h0 := ht.2 hd
              simp [closeBot, hd, hq, h0]
            · intro h
              simp [closeBot, hd, hq] at h
        · constructor
          · simpa [closeBot, hd] using ht.1
          · intro h
            simp [closeBot, hd] at h
    exact key n s ⟨by omega, fun _ => hterm⟩
  · intro r
    cases hr : r.bodyOutcome <;>
      by_cases hd : r.bot.driverPresent <;>
      by_cases hq : r.bot.quitRaises <;>
      simp [runCliFinal, closeBot, hd, hq]

/-- Witness for C10 amended at a concrete fresh session whose quit
succeeds: the reference is cleared, the second close performs no quit,
and two close calls terminate the browser exactly once. -/
theorem close_guaranteed_release_witness :
    (closeBot ⟨true, false, 0, 0, 0⟩).driverPresent = false ∧
    (closeBot (closeBot ⟨true, false, 0, 0, 0⟩)).quitCalls =
      (closeBot ⟨true, false, 0, 0, 0⟩).quitCalls ∧
    (closeBotIter 2 ⟨true, false, 0, 0, 0⟩).termCount ≤ 1 := by
  have h := close_guaranteed_release ⟨true, false, 0, 0, 0⟩ 2 rfl
  exact ⟨(h.1 rfl rfl).1, (h.1 rfl rfl).2, h.2.1⟩
